import Mathlib

/-!
Shallow embedding of `lm_eval/tasks/xquad.py`: the XQuAD task adapters
`xquad_en` and `xquad_ar`, their request construction, result scoring and
aggregation dispatch.  External collaborators (the HuggingFace dataset, the
`squad_v2` scoring metric, the LM backend, the `PromptSourceTask` base class
configuration accessors) are modelled as parameters.  Numeric values carried
by the code (log probabilities) are a type parameter `F`; the mathematical
model instantiates `F := ℝ` with `Real.exp` for the `exp` import.
-/

namespace LmEvalMlm

/-- Answers field of a dataset record: `{text: sequence<string>, answer_start: sequence<int>}`. -/
structure Answers where
  text : List String
  answer_start : List Int
deriving DecidableEq, Repr

/-- Record from the Document Provider, as used by the adapters
(`doc['id']`, `doc['answers']`; context and question ride along). -/
structure Record where
  id : String
  context : String
  question : String
  answers : Answers
deriving DecidableEq, Repr

/-- Adapter-level configuration supplied by the external `PromptSourceTask`
base class: the values returned by `self.stopping_criteria()` and
`self.max_generation_length()`. -/
structure TaskConfig where
  stopping_criteria : List String
  max_generation_length : Nat
deriving DecidableEq, Repr

/-- The `args` dict passed to `construct_requests`; the code reads only
`args["num_fewshot"]`. -/
structure RunArgs where
  num_fewshot : Nat
deriving DecidableEq, Repr

/-- The `request_args` dict built inside `construct_requests`. -/
structure ReqArgs where
  stopping_criteria : List String
  max_generation_length : Nat
  num_fewshot : Nat
deriving DecidableEq, Repr

/-- A model request, one of the two kinds produced by the request factory:
`rf.greedy_until(ctx, request_args)` or `rf.loglikelihood(ctx, continuation)`. -/
inductive Request where
  | greedy_until (ctx : String) (args : ReqArgs)
  | loglikelihood (ctx : String) (continuation : String)
deriving DecidableEq, Repr

/-- A raw element of the `results` sequence handed to `process_results`.
The LM backend returns a string for a generation request and a
`(log_probability, is_greedy)` pair for a likelihood request; `results` is an
untyped Python sequence, so either kind can sit at either position. -/
inductive ResultVal (F : Type) where
  | gen (s : String)
  | ll (lp : F) (is_greedy : Bool)
deriving DecidableEq, Repr

/-- The `predictions` dict built by `process_results`.  `prediction_text`
holds whatever Python bound to `pred` (the first element of `results`),
hence a raw `ResultVal`. -/
structure Prediction (F : Type) where
  id : String
  prediction_text : ResultVal F
  no_answer_probability : F
deriving DecidableEq, Repr

/-- The `references` dict built by `process_results`. -/
structure Reference where
  id : String
  answers : Answers
deriving DecidableEq, Repr

/-- The logged example dict (`{"pred": ..., "target": ...}`) built when
`save_examples` is set. -/
structure ExampleInfo (F : Type) where
  pred : ResultVal F
  target : Answers
deriving DecidableEq, Repr

/-- The metrics dictionary returned by `process_results`: metric name to
scorable `(predictions, references)` tuple, in insertion order. -/
abbrev MetricsMap (F : Type) := List (String × (Prediction F × Reference))

/-- Outcome of a `process_results` call: either the returned pair or a raised
exception, carried as a message string. -/
abbrev ScoreResult (F : Type) := Except String (MetricsMap F × ExampleInfo F)

/-- Boolean view of an `Except` outcome: did the call return a value
(rather than raise)? -/
def exceptIsOk {ε α : Type} : Except ε α → Bool
  | .ok _ => true
  | .error _ => false

/-- Record of one invocation of the external Scoring Service: the full
predictions list and the full references list it was called with. -/
structure ScoreCall (P R : Type) where
  predictions : List P
  references : List R
deriving DecidableEq, Repr

/-- Embedding of `_squad_metric(predictions, references)`.  The external
`datasets.load_metric("squad_v2").compute` is abstracted as `scorer`, a
function from the two lists to a metrics dictionary (a function from metric
name to value).  Each invocation additionally emits one `ScoreCall` trace
entry, so that the number of Scoring Service calls is observable. -/
def _squad_metric {F P R : Type} (scorer : List P → List R → String → F)
    (predictions : List P) (references : List R) :
    (String → F) × List (ScoreCall P R) :=
  (scorer predictions references, [{ predictions := predictions, references := references }])

/-- Embedding of `_squad_agg(key, items)`: `predictions, references =
zip(*items)` followed by `_squad_metric(...)[key]`.  On an empty `items`,
`zip(*items)` yields nothing to unpack and Python raises; on a non-empty
`items`, `zip(*items)` is the pair of the list of first components and the
list of second components. -/
def _squad_agg {F P R : Type} (scorer : List P → List R → String → F)
    (key : String) (items : List (P × R)) :
    Except String (F × List (ScoreCall P R)) :=
  match items with
  | [] => .error "ValueError: not enough values to unpack zip of empty items"
  | _ :: _ =>
    let predictions := items.map Prod.fst
    let references := items.map Prod.snd
    let m := _squad_metric scorer predictions references
    .ok (m.fst key, m.snd)

/-- Dataset splits dictionary (`self.dataset`): split name to record list,
provided by the external data provider. -/
abbrev DatasetDict := List (String × List Record)

/-- Python dict subscript `self.dataset[split]`: `KeyError` when the split is
absent. -/
def getSplit (ds : DatasetDict) (split : String) : Except String (List Record) :=
  match ds.lookup split with
  | some docs => .ok docs
  | none => .error ("KeyError: " ++ split)

namespace xquad_en

/-- Dataset selector of the English variant. -/
def DATASET_NAME : String := "xquad.en"

def has_training_docs : Bool := false

def has_validation_docs : Bool := true

def has_test_docs : Bool := false

/-- Embedding of `training_docs(self)`: `return self.dataset["train"]`. -/
def training_docs (ds : DatasetDict) : Except String (List Record) :=
  getSplit ds "train"

/-- Embedding of `validation_docs(self)`: `return self.dataset["validation"]`. -/
def validation_docs (ds : DatasetDict) : Except String (List Record) :=
  getSplit ds "validation"

/-- Embedding of `construct_requests(self, doc, ctx, args)`. -/
def construct_requests (cfg : TaskConfig) (_doc : Record) (ctx : String)
    (args : RunArgs) : Request × Request :=
  let request_args : ReqArgs :=
    { stopping_criteria := cfg.stopping_criteria
      max_generation_length := cfg.max_generation_length
      num_fewshot := args.num_fewshot }
  let cont_request := Request.greedy_until ctx request_args
  let is_unanswerable := Request.loglikelihood ctx (" " ++ "unanswerable")
  (cont_request, is_unanswerable)

/-- Embedding of `process_results(self, doc, results)`.  The statement
`pred, (logprob_unanswerable, _) = results` binds `pred` to the first element
unchecked and requires the second element to unpack as a pair; a string in
second position either fails tuple unpacking (length other than 2) or binds a
character that `exp` then rejects with a `TypeError`, so both are modelled as
a raised contract failure.  When `save_examples` is false, `example` is only
assigned inside the `if` branch and the unconditional `return ..., example`
raises `UnboundLocalError`. -/
def process_results {F : Type} (expf : F → F) (save_examples : Bool)
    (doc : Record) (results : List (ResultVal F)) : ScoreResult F :=
  match results with
  | [pred, ResultVal.ll logprob_unanswerable _] =>
    let no_answer_probability := expf logprob_unanswerable
    let predictions : Prediction F :=
      { id := doc.id
        prediction_text := pred
        no_answer_probability := no_answer_probability }
    let references : Reference :=
      { id := doc.id
        answers := doc.answers }
    if save_examples then
      let ex : ExampleInfo F := { pred := pred, target := doc.answers }
      .ok
        ([ ("exact", (predictions, references))
         , ("f1", (predictions, references))
         , ("HasAns_exact", (predictions, references))
         , ("HasAns_f1", (predictions, references))
         , ("NoAns_exact", (predictions, references))
         , ("NoAns_f1", (predictions, references))
         , ("best_exact", (predictions, references))
         , ("best_f1", (predictions, references)) ], ex)
    else
      .error "UnboundLocalError: local variable example referenced before assignment"
  | [_, ResultVal.gen _] =>
    .error "TypeError: the second result does not yield a numeric log probability"
  | _ =>
    .error "ValueError: results does not unpack as pred, (logprob_unanswerable, _)"

/-- Embedding of `aggregation(self)`: each metric name is mapped to
`partial(_squad_agg, name)`, with the Scoring Service abstracted as
`scorer`. -/
def aggregation {F P R : Type} (scorer : List P → List R → String → F) :
    List (String × (List (P × R) → Except String (F × List (ScoreCall P R)))) :=
  [ ("exact", _squad_agg scorer "exact")
  , ("f1", _squad_agg scorer "f1")
  , ("HasAns_exact", _squad_agg scorer "HasAns_exact")
  , ("HasAns_f1", _squad_agg scorer "HasAns_f1")
  , ("NoAns_exact", _squad_agg scorer "NoAns_exact")
  , ("NoAns_f1", _squad_agg scorer "NoAns_f1")
  , ("best_exact", _squad_agg scorer "best_exact")
  , ("best_f1", _squad_agg scorer "best_f1") ]

/-- Embedding of `higher_is_better(self)`. -/
def higher_is_better : List (String × Bool) :=
  [ ("exact", true)
  , ("f1", true)
  , ("HasAns_exact", true)
  , ("HasAns_f1", true)
  , ("NoAns_exact", true)
  , ("NoAns_f1", true)
  , ("best_exact", true)
  , ("best_f1", true) ]

end xquad_en

namespace xquad_ar

/-- Dataset selector of the Arabic variant. -/
def DATASET_NAME : String := "xquad.ar"

def has_training_docs : Bool := false

def has_validation_docs : Bool := true

def has_test_docs : Bool := false

/-- Embedding of `training_docs(self)`: `return self.dataset["train"]`. -/
def training_docs (ds : DatasetDict) : Except String (List Record) :=
  getSplit ds "train"

/-- Embedding of `validation_docs(self)`: `return self.dataset["validation"]`. -/
def validation_docs (ds : DatasetDict) : Except String (List Record) :=
  getSplit ds "validation"

/-- Embedding of `construct_requests(self, doc, ctx, args)`; the body is a
verbatim duplicate of the English variant. -/
def construct_requests (cfg : TaskConfig) (_doc : Record) (ctx : String)
    (args : RunArgs) : Request × Request :=
  let request_args : ReqArgs :=
    { stopping_criteria := cfg.stopping_criteria
      max_generation_length := cfg.max_generation_length
      num_fewshot := args.num_fewshot }
  let cont_request := Request.greedy_until ctx request_args
  let is_unanswerable := Request.loglikelihood ctx (" " ++ "unanswerable")
  (cont_request, is_unanswerable)

/-- Embedding of `process_results(self, doc, results)` for the Arabic
variant: identical to the English one except for the declared metric keys
(`best_exact_thresh`/`best_f1_thresh` instead of `NoAns_exact`/`NoAns_f1`).
The same `UnboundLocalError` path exists when `save_examples` is false. -/
def process_results {F : Type} (expf : F → F) (save_examples : Bool)
    (doc : Record) (results : List (ResultVal F)) : ScoreResult F :=
  match results with
  | [pred, ResultVal.ll logprob_unanswerable _] =>
    let no_answer_probability := expf logprob_unanswerable
    let predictions : Prediction F :=
      { id := doc.id
        prediction_text := pred
        no_answer_probability := no_answer_probability }
    let references : Reference :=
      { id := doc.id
        answers := doc.answers }
    if save_examples then
      let ex : ExampleInfo F := { pred := pred, target := doc.answers }
      .ok
        ([ ("exact", (predictions, references))
         , ("f1", (predictions, references))
         , ("HasAns_exact", (predictions, references))
         , ("HasAns_f1", (predictions, references))
         , ("best_exact_thresh", (predictions, references))
         , ("best_f1_thresh", (predictions, references))
         , ("best_exact", (predictions, references))
         , ("best_f1", (predictions, references)) ], ex)
    else
      .error "UnboundLocalError: local variable example referenced before assignment"
  | [_, ResultVal.gen _] =>
    .error "TypeError: the second result does not yield a numeric log probability"
  | _ =>
    .error "ValueError: results does not unpack as pred, (logprob_unanswerable, _)"

/-- Embedding of `aggregation(self)` for the Arabic variant. -/
def aggregation {F P R : Type} (scorer : List P → List R → String → F) :
    List (String × (List (P × R) → Except String (F × List (ScoreCall P R)))) :=
  [ ("exact", _squad_agg scorer "exact")
  , ("f1", _squad_agg scorer "f1")
  , ("HasAns_exact", _squad_agg scorer "HasAns_exact")
  , ("HasAns_f1", _squad_agg scorer "HasAns_f1")
  , ("best_exact_thresh", _squad_agg scorer "best_exact_thresh")
  , ("best_f1_thresh", _squad_agg scorer "best_f1_thresh")
  , ("best_exact", _squad_agg scorer "best_exact")
  , ("best_f1", _squad_agg scorer "best_f1") ]

/-- Embedding of `higher_is_better(self)` for the Arabic variant. -/
def higher_is_better : List (String × Bool) :=
  [ ("exact", true)
  , ("f1", true)
  , ("HasAns_exact", true)
  , ("HasAns_f1", true)
  , ("best_exact_thresh", true)
  , ("best_f1_thresh", true)
  , ("best_exact", true)
  , ("best_f1", true) ]

end xquad_ar

/-- Extraction helper: the `no_answer_probability` field of the prediction
payload carried by the returned metrics mapping (its first entry), when the
call returned one. -/
def napOf {F : Type} : ScoreResult F → Option F
  | .ok ((_, (p, _)) :: _, _) => some p.no_answer_probability
  | _ => none

/-- Concrete record used by closed witness statements. -/
def sampleDoc : Record :=
  { id := "1"
    context := "Paris is the capital of France."
    question := "What is the capital of France?"
    answers := { text := ["Paris"], answer_start := [0] } }

/-- Extraction helper: the metrics mapping carried by a `process_results`
outcome, empty when the call raised. -/
def metricsOf {F : Type} : ScoreResult F → MetricsMap F
  | .ok (m, _) => m
  | .error _ => []

/-- Behaviour of `_squad_agg` on a non-empty items sequence: one Scoring
Service call with the full unzipped lists, and the named field of its
result. -/
lemma squad_agg_spec {F P R : Type} (scorer : List P → List R → String → F)
    (key : String) (items : List (P × R)) (h : items ≠ []) :
    _squad_agg scorer key items
      = .ok (scorer (items.map Prod.fst) (items.map Prod.snd) key,
             [{ predictions := items.map Prod.fst
                references := items.map Prod.snd }]) := by
  cases items with
  | nil => exact absurd rfl h
  | cons a l => rfl

/-- C1: with `save_examples` off, `process_results` of both variants never
returns a well-defined second value: on every well-formed `results` pair it
raises `UnboundLocalError`, because `example` is only assigned inside the
`if self.save_examples` branch and the `return` references it
unconditionally.  This refutes the claimed sentinel behaviour and exhibits
the defect the spec flags. -/
theorem claim_C1_save_examples_off_unbound {F : Type} (expf : F → F)
    (doc : Record) (s : String) (lp : F) (g : Bool) :
    xquad_en.process_results expf false doc [ResultVal.gen s, ResultVal.ll lp g]
      = .error "UnboundLocalError: local variable example referenced before assignment"
    ∧ xquad_ar.process_results expf false doc [ResultVal.gen s, ResultVal.ll lp g]
      = .error "UnboundLocalError: local variable example referenced before assignment" :=
  ⟨rfl, rfl⟩

/-- C2: for every configuration, record, prompt context and run args, each
variant returns exactly one generation request followed by one likelihood
request; the likelihood request pairs the same context with the literal
continuation " unanswerable", independent of record content. -/
theorem claim_C2_requests_shape (cfg : TaskConfig) (doc : Record)
    (ctx : String) (args : RunArgs) :
    xquad_en.construct_requests cfg doc ctx args
      = (Request.greedy_until ctx
          { stopping_criteria := cfg.stopping_criteria
            max_generation_length := cfg.max_generation_length
            num_fewshot := args.num_fewshot },
         Request.loglikelihood ctx " unanswerable")
    ∧ xquad_ar.construct_requests cfg doc ctx args
      = (Request.greedy_until ctx
          { stopping_criteria := cfg.stopping_criteria
            max_generation_length := cfg.max_generation_length
            num_fewshot := args.num_fewshot },
         Request.loglikelihood ctx " unanswerable") :=
  ⟨rfl, rfl⟩

/-- C5: for each variant, the mapping returned by `aggregation` and the
mapping returned by `higher_is_better` declare exactly the same metric-name
keys, in the same order. -/
theorem claim_C5_key_sets_agree {F P R : Type}
    (scorer : List P → List R → String → F) :
    (xquad_en.aggregation scorer).map Prod.fst
        = xquad_en.higher_is_better.map Prod.fst
    ∧ (xquad_ar.aggregation scorer).map Prod.fst
        = xquad_ar.higher_is_better.map Prod.fst :=
  ⟨rfl, rfl⟩

/-- C7: both variants declare a validation split only: `has_training_docs`
and `has_test_docs` are false, `has_validation_docs` is true. -/
theorem claim_C7_split_declarations :
    xquad_en.has_training_docs = false
    ∧ xquad_en.has_validation_docs = true
    ∧ xquad_en.has_test_docs = false
    ∧ xquad_ar.has_training_docs = false
    ∧ xquad_ar.has_validation_docs = true
    ∧ xquad_ar.has_test_docs = false :=
  ⟨rfl, rfl, rfl, rfl, rfl, rfl⟩

/-- C10: the request-construction logic of the two language variants is
extensionally identical: on every input they build equal request pairs,
while the variants do differ in their dataset selector strings and in their
declared metric-name sets. -/
theorem claim_C10_construct_requests_identical :
    (∀ (cfg : TaskConfig) (doc : Record) (ctx : String) (args : RunArgs),
        xquad_en.construct_requests cfg doc ctx args
          = xquad_ar.construct_requests cfg doc ctx args)
    ∧ xquad_en.DATASET_NAME ≠ xquad_ar.DATASET_NAME
    ∧ xquad_en.higher_is_better.map Prod.fst
        ≠ xquad_ar.higher_is_better.map Prod.fst :=
  ⟨fun _ _ _ _ => rfl, by decide, by decide⟩

/-- C3: every aggregator declared by `aggregation` of either variant, applied
to a non-empty sequence of scorable tuples, unzips it into the full
predictions list and the full references list, invokes the Scoring Service
exactly once with both (the emitted trace is a single call holding both full
lists), and returns the field named by its metric key from the returned
metrics dictionary. -/
theorem claim_C3_aggregator_one_call {F P R : Type}
    (scorer : List P → List R → String → F) (key : String)
    (f : List (P × R) → Except String (F × List (ScoreCall P R)))
    (items : List (P × R))
    (hmem : (key, f) ∈ xquad_en.aggregation scorer
            ∨ (key, f) ∈ xquad_ar.aggregation scorer)
    (hne : items ≠ []) :
    f items
      = .ok (scorer (items.map Prod.fst) (items.map Prod.snd) key,
             [{ predictions := items.map Prod.fst
                references := items.map Prod.snd }]) := by
  have hf : f = _squad_agg scorer key := by
    rcases hmem with h | h <;>
      simp only [xquad_en.aggregation, xquad_ar.aggregation, List.mem_cons,
        List.not_mem_nil, or_false, Prod.mk.injEq] at h <;>
      rcases h with h | h | h | h | h | h | h | h <;>
      rw [h.1, h.2]
  rw [hf]
  exact squad_agg_spec scorer key items hne

/-- Witness for C3 at the "exact" aggregator of the English variant, a
concrete scorer and the one-element items sequence [(1, 2)]. -/
theorem claim_C3_aggregator_one_call_witness :
    _squad_agg (fun (ps : List Nat) (_ : List Nat) (_ : String) => (ps.length : Int))
        "exact" [((1 : Nat), (2 : Nat))]
      = .ok (1, [{ predictions := [1], references := [2] }]) := by
  have h := claim_C3_aggregator_one_call
      (fun (ps : List Nat) (_ : List Nat) (_ : String) => (ps.length : Int))
      "exact"
      (_squad_agg (fun (ps : List Nat) (_ : List Nat) (_ : String) => (ps.length : Int)) "exact")
      [((1 : Nat), (2 : Nat))]
      (Or.inl (by simp [xquad_en.aggregation]))
      (by simp)
  simpa using h

/-- C4: for every record and every results pair that yields a metrics
mapping, the returned mapping of each variant carries the identical
(prediction, reference) payload under every one of its eight metric keys. -/
theorem claim_C4_identical_payloads {F : Type} (expf : F → F) (doc : Record)
    (p : ResultVal F) (lp : F) (g : Bool) :
    (metricsOf (xquad_en.process_results expf true doc [p, ResultVal.ll lp g])).map Prod.snd
      = List.replicate 8
          ({ id := doc.id, prediction_text := p, no_answer_probability := expf lp },
           { id := doc.id, answers := doc.answers })
    ∧ (metricsOf (xquad_ar.process_results expf true doc [p, ResultVal.ll lp g])).map Prod.snd
      = List.replicate 8
          ({ id := doc.id, prediction_text := p, no_answer_probability := expf lp },
           { id := doc.id, answers := doc.answers }) :=
  ⟨rfl, rfl⟩

/-- C6: with the mathematical exponential, the no-answer probability in the
scored prediction equals exp of the log probability of the " unanswerable"
continuation; for a nonpositive log probability it lies in (0, 1], and it
grows strictly with the log probability. -/
theorem claim_C6_no_answer_probability (doc : Record) (s s' : String)
    (g g' : Bool) (lp lp' : ℝ) (h0 : lp ≤ 0) (hlt : lp < lp') :
    napOf (xquad_en.process_results Real.exp true doc
        [ResultVal.gen s, ResultVal.ll lp g]) = some (Real.exp lp)
    ∧ 0 < Real.exp lp
    ∧ Real.exp lp ≤ 1
    ∧ napOf (xquad_en.process_results Real.exp true doc
        [ResultVal.gen s', ResultVal.ll lp' g']) = some (Real.exp lp')
    ∧ Real.exp lp < Real.exp lp' :=
  ⟨rfl, Real.exp_pos lp, Real.exp_le_one_iff.mpr h0, rfl, Real.exp_lt_exp.mpr hlt⟩

/-- Witness for C6 at log probabilities -1 and 0 on the sample record. -/
theorem claim_C6_no_answer_probability_witness :
    ((-1 : ℝ) ≤ 0) ∧ ((-1 : ℝ) < (0 : ℝ)) ∧
    (napOf (xquad_en.process_results Real.exp true sampleDoc
        [ResultVal.gen "Paris", ResultVal.ll (-1 : ℝ) false]) = some (Real.exp (-1))
     ∧ 0 < Real.exp (-1)
     ∧ Real.exp (-1) ≤ 1
     ∧ napOf (xquad_en.process_results Real.exp true sampleDoc
        [ResultVal.gen "", ResultVal.ll (0 : ℝ) true]) = some (Real.exp 0)
     ∧ Real.exp (-1) < Real.exp 0) :=
  ⟨by norm_num, by norm_num,
   claim_C6_no_answer_probability sampleDoc "Paris" "" false true (-1) 0
     (by norm_num) (by norm_num)⟩

/-- C8 counterexample: on a dataset of the shape this benchmark declares
(validation split only), `training_docs` of the English variant raises a
KeyError on the absent train split instead of returning an empty record
sequence. -/
theorem claim_C8_counterexample :
    xquad_en.training_docs [("validation", [])] = .error "KeyError: train" :=
  rfl

/-- C8 amended: the has-split queries are as claimed (no training, no test,
validation only), and the validation accessor returns the validation split;
but the training accessor is not empty-returning: it forwards to the train
split of the dataset and, on any dataset without a train key (the shape of
this benchmark), fails with a KeyError. -/
theorem claim_C8_training_docs_keyerror (ds : DatasetDict) (docs : List Record)
    (htrain : ds.lookup "train" = none)
    (hval : ds.lookup "validation" = some docs) :
    xquad_en.has_training_docs = false
    ∧ xquad_en.has_test_docs = false
    ∧ xquad_ar.has_training_docs = false
    ∧ xquad_ar.has_test_docs = false
    ∧ xquad_en.training_docs ds = .error "KeyError: train"
    ∧ xquad_ar.training_docs ds = .error "KeyError: train"
    ∧ xquad_en.validation_docs ds = .ok docs
    ∧ xquad_ar.validation_docs ds = .ok docs := by
  unfold xquad_en.training_docs xquad_ar.training_docs
    xquad_en.validation_docs xquad_ar.validation_docs getSplit
  rw [htrain, hval]
  exact ⟨rfl, rfl, rfl, rfl, rfl, rfl, rfl, rfl⟩

/-- Witness for C8 on the concrete validation-only dataset with no
records. -/
theorem claim_C8_training_docs_keyerror_witness :
    (([("validation", ([] : List Record))] : DatasetDict).lookup "train" = none)
    ∧ (([("validation", ([] : List Record))] : DatasetDict).lookup "validation"
        = some [])
    ∧ (xquad_en.has_training_docs = false
       ∧ xquad_en.has_test_docs = false
       ∧ xquad_ar.has_training_docs = false
       ∧ xquad_ar.has_test_docs = false
       ∧ xquad_en.training_docs [("validation", [])] = .error "KeyError: train"
       ∧ xquad_ar.training_docs [("validation", [])] = .error "KeyError: train"
       ∧ xquad_en.validation_docs [("validation", [])] = .ok []
       ∧ xquad_ar.validation_docs [("validation", [])] = .ok []) :=
  ⟨by simp, by simp,
   claim_C8_training_docs_keyerror [("validation", [])] [] (by simp) (by simp)⟩

/-- C9 counterexample: a results sequence made of two likelihood results,
which contains no generated string and is therefore not of the expected
shape, is still accepted: scoring returns a metrics mapping, binding the
first likelihood pair as the prediction text instead of failing. -/
theorem claim_C9_counterexample :
    exceptIsOk (xquad_en.process_results (fun x : Int => x) true sampleDoc
        [ResultVal.ll (-3 : Int) true, ResultVal.ll (-1 : Int) false]) = true :=
  rfl

/-- C9 amended: scoring raises a contract-violation failure whenever the
results sequence cannot be destructured as two elements whose second is a
(log probability, greedy flag) pair; the first element, however, is not
validated, so a malformed first element with a well-formed second one is
silently accepted (see the counterexample). -/
theorem claim_C9_malformed_results {F : Type} (expf : F → F) (save : Bool)
    (doc : Record) (results : List (ResultVal F))
    (h : ∀ (p : ResultVal F) (lp : F) (g : Bool),
          results ≠ [p, ResultVal.ll lp g]) :
    exceptIsOk (xquad_en.process_results expf save doc results) = false := by
  match results with
  | [p, ResultVal.ll lp g] => exact absurd rfl (h p lp g)
  | [] => rfl
  | [_] => rfl
  | [_, ResultVal.gen _] => rfl
  | _ :: ResultVal.gen _ :: _ :: _ => rfl
  | _ :: ResultVal.ll _ _ :: _ :: _ => rfl

/-- Witness for C9 at the empty results sequence. -/
theorem claim_C9_malformed_results_witness :
    (∀ (p : ResultVal Int) (lp : Int) (g : Bool),
        ([] : List (ResultVal Int)) ≠ [p, ResultVal.ll lp g])
    ∧ exceptIsOk (xquad_en.process_results (fun x : Int => x) true sampleDoc
        ([] : List (ResultVal Int))) = false :=
  ⟨fun _ _ _ hc => List.noConfusion hc,
   claim_C9_malformed_results (fun x : Int => x) true sampleDoc []
     (fun _ _ _ hc => List.noConfusion hc)⟩

end LmEvalMlm
